import Mathlib

/-
Verification of the screen/event orchestration engine of the Decision Game
(frontend/main_game.py, frontend/game_logic.py, frontend/event_handlers.py,
frontend/ai_service.py), shallowly embedded in Lean.

Times are the pygame millisecond tick counter, modelled as Nat (the tick
clock is monotone, so `current_time - loading_start_time` is the usual
truncated subtraction).  The background worker thread attached to a
LoadingTask is modelled by a Bool field `loading_operation` (a thread
object is attached) together with a Bool step input `opAlive`
(`Thread.is_alive()` observed at the current tick).
-/

namespace DecisionGame

/-- The closed set of game states declared as class constants on
`DecisionGame` (main_game.py lines 40-52). -/
inductive ScreenState
  | main_menu
  | login
  | register
  | scenario
  | lets_talk
  | history
  | settings
  | personality_test
  | personality_result
  | simulation
  | simulation_result
  | simulation_report
  | loading
  deriving DecidableEq, Repr

/-- The mutable application state held on the `DecisionGame` object, restricted
to the fields the orchestration engine reads and writes.  Text-box widgets are
represented by the text they hold; button widgets by their `visible` flag. -/
structure GameState where
  current_state : ScreenState
  previous_state : Option ScreenState
  status_message : String
  status_color : Nat × Nat × Nat
  user : Option String
  token : Option String
  is_loading : Bool
  loading_message : String
  loading_target_state : Option ScreenState
  loading_progress : Nat
  loading_start_time : Nat
  loading_operation : Bool
  loading_completed : Bool
  loading_animation_frames : Nat
  scenario_text : String
  scenario_input_text : String
  username_box_text : String
  password_box_text : String
  response_input_text : String
  conversation_questions : List String
  current_question_index : Nat
  user_responses : List String
  conversation_complete : Bool
  conversation_summary_set : Bool
  next_question_button_visible : Bool
  previous_question_button_visible : Bool
  finish_conversation_button_visible : Bool
  explore_more_button_visible : Bool
  new_topic_button_visible : Bool
  deriving DecidableEq

/-- The state established by `DecisionGame.__init__` (main_game.py lines
79-106); widget text boxes start empty and the conversation buttons hidden. -/
def initGameState : GameState where
  current_state := ScreenState.main_menu
  previous_state := none
  status_message := "Welcome to Decision Game"
  status_color := (0, 150, 255)
  user := none
  token := none
  is_loading := false
  loading_message := "Loading..."
  loading_target_state := none
  loading_progress := 0
  loading_start_time := 0
  loading_operation := false
  loading_completed := false
  loading_animation_frames := 0
  scenario_text := ""
  scenario_input_text := ""
  username_box_text := ""
  password_box_text := ""
  response_input_text := ""
  conversation_questions := []
  current_question_index := 0
  user_responses := []
  conversation_complete := false
  conversation_summary_set := false
  next_question_button_visible := false
  previous_question_button_visible := false
  finish_conversation_button_visible := false
  explore_more_button_visible := false
  new_topic_button_visible := false

/-- `DecisionGame.set_status` (main_game.py lines 290-293). -/
def set_status (g : GameState) (message : String) (color : Nat × Nat × Nat) : GameState :=
  { g with status_message := message, status_color := color }

/-- `DecisionGame.change_state` (main_game.py lines 310-320): optionally save
the current state into `previous_state`, then set `current_state`. -/
def change_state (g : GameState) (new_state : ScreenState) (save_previous : Bool) : GameState :=
  let g := if save_previous then { g with previous_state := some g.current_state } else g
  { g with current_state := new_state }

/-- `DecisionGame.back_to_previous_state` (main_game.py lines 301-308): if a
previous state is recorded (Python truthiness of a non-empty state string),
swap current and previous; otherwise fall back to the SCENARIO screen. -/
def back_to_previous_state (g : GameState) : GameState :=
  match g.previous_state with
  | some prev => { g with current_state := prev, previous_state := some g.current_state }
  | none => { g with current_state := ScreenState.scenario }

/-- `DecisionGame.start_loading` (main_game.py lines 267-288).  `hasOperation`
records whether a worker thread was created and started; `now` is
`pygame.time.get_ticks()`. -/
def start_loading (g : GameState) (message : String) (target_state : Option ScreenState)
    (hasOperation : Bool) (now : Nat) : GameState :=
  { g with
    is_loading := true
    loading_message := message
    loading_target_state := target_state
    loading_progress := 0
    loading_start_time := now
    loading_completed := false
    loading_operation := hasOperation }

/-- `DecisionGame._update_loading` (main_game.py lines 234-265).
`current_time` is `pygame.time.get_ticks()`; `opAlive` is the value of
`loading_operation.is_alive()` at this tick (consulted only when a thread is
attached).  The float expression `int(elapsed / 33.3) % 8` for the animation
frame is rendered with exact rational arithmetic as `elapsed * 10 / 333`, and
`int(elapsed / 2000 * 100)` as `elapsed * 100 / 2000`. -/
def update_loading (g : GameState) (current_time : Nat) (opAlive : Bool) : GameState :=
  let elapsed := current_time - g.loading_start_time
  let g := { g with loading_animation_frames := elapsed * 10 / 333 % 8 }
  if g.loading_operation && !g.loading_completed then
    if !opAlive then
      { g with loading_completed := true, loading_progress := 100 }
    else
      g
  else
    if elapsed < 2000 then
      { g with loading_progress := elapsed * 100 / 2000 }
    else
      let g := { g with loading_progress := 100 }
      if elapsed > 2500 && !g.loading_completed then
        { g with loading_completed := true }
      else if elapsed > 3500 then
        let g := { g with is_loading := false }
        if g.current_state ≠ ScreenState.login then
          { g with current_state := ScreenState.login }
        else
          g
      else
        g

/-- The loading-related portion of `DecisionGame.update` (main_game.py lines
152-168): while loading, run `_update_loading`, then, if the task is completed
and a target state is set, clear the operation, leave the loading state and
transition to the target. -/
def update (g : GameState) (current_time : Nat) (opAlive : Bool) : GameState :=
  if g.is_loading then
    let g := update_loading g current_time opAlive
    if g.loading_completed then
      match g.loading_target_state with
      | some target =>
        { g with
          loading_operation := false
          is_loading := false
          current_state := target
          loading_target_state := none }
      | none => g
    else
      g
  else
    g

/-- The failure and exception branches of `GameLogic.register` (game_logic.py
lines 63-81): set an error status and, if a loading screen is active, redirect
the in-flight task back to the REGISTER screen and force completion. -/
def register_failure (g : GameState) (error_msg : String) : GameState :=
  let g := set_status g ("Registration failed: " ++ error_msg) (255, 0, 0)
  if g.is_loading then
    { g with loading_target_state := some ScreenState.register, loading_completed := true }
  else
    g

/-- `GameLogic.complete_conversation` (game_logic.py lines 312-331): mark the
conversation complete, update button visibility, and generate the summary.
The summary content is drawn with `random.choice`; only the fact that a
summary struct is produced is tracked (`conversation_summary_set`). -/
def complete_conversation (g : GameState) : GameState :=
  { g with
    conversation_complete := true
    next_question_button_visible := false
    previous_question_button_visible := false
    finish_conversation_button_visible := false
    explore_more_button_visible := true
    new_topic_button_visible := true
    conversation_summary_set := true
    status_message := "Conversation complete! Here\x27s your decision clarity summary."
    status_color := (0, 200, 0) }

/-- `GameLogic.answer_current_question` (game_logic.py lines 291-310): append
the response, clear the response input box, advance the question index, and
complete the conversation once the index reaches the question count. -/
def answer_current_question (g : GameState) (response : String) : GameState :=
  let g := { g with user_responses := g.user_responses ++ [response] }
  let g := { g with response_input_text := "" }
  let g := { g with current_question_index := g.current_question_index + 1 }
  if g.conversation_questions.length ≤ g.current_question_index then
    complete_conversation g
  else
    { g with previous_question_button_visible := true }

/-- `GameEventHandler._submit_response` (event_handlers.py lines 548-556):
read the response text box; a non-empty (truthy) response is processed by
`answer_current_question`, an empty one only sets a status message. -/
def submit_response (g : GameState) : GameState :=
  let response := g.response_input_text
  if response ≠ "" then
    answer_current_question g response
  else
    set_status g "Please enter a response" (255, 150, 0)

/-- Submitting a sequence of responses: before each press of the submit
control the user types the response into the response text box. -/
def submit_responses (g : GameState) (rs : List String) : GameState :=
  rs.foldl (fun g r => submit_response { g with response_input_text := r }) g

/-- Python `str.strip()` with no argument: drop leading and trailing
whitespace (restricted to the ASCII whitespace characters of
`Char.isWhitespace`; the game only ever feeds keyboard text). -/
def py_strip (s : String) : String :=
  String.mk (((s.data.dropWhile Char.isWhitespace).reverse.dropWhile Char.isWhitespace).reverse)

/-- `GameLogic.analyze_scenario` (game_logic.py lines 107-127): an empty or
whitespace-only scenario text (Python `not text or text.strip() == ""`) only
sets a validation status; otherwise the text is stored and a loading task
towards LETS_TALK is started with the analysis operation. -/
def analyze_scenario (g : GameState) (now : Nat) : GameState :=
  let scenario_text := g.scenario_input_text
  if scenario_text = "" ∨ py_strip scenario_text = "" then
    set_status g "Please enter a scenario first" (255, 150, 0)
  else
    let g := { g with scenario_text := scenario_text }
    start_loading g "Analyzing your scenario..." (some ScreenState.lets_talk) true now

/-- The submit branch of `GameEventHandler._handle_login_button_click`
(event_handlers.py lines 191-213): blank username or password only sets a
validation status; the test/test shortcut logs in directly; otherwise a
loading task towards SCENARIO is started with the login operation. -/
def handle_login_submit (g : GameState) (now : Nat) : GameState :=
  let username := g.username_box_text
  let password := g.password_box_text
  if username = "" ∨ password = "" then
    set_status g "Please enter username and password" (255, 150, 0)
  else if username = "test" ∧ password = "test" then
    let g := { g with
      user := some "Test User"
      token := some "test_token_123"
      current_state := ScreenState.scenario }
    set_status g "Welcome, Test User!" (0, 255, 0)
  else
    start_loading g "Logging in..." (some ScreenState.scenario) true now

/-- An MBTI question as consumed by the local scorer: its id and its optional
`dimension` tag (game_logic.py `_generate_mbti_questions`). -/
structure MbtiQuestion where
  id : Nat
  dimension : Option String
  deriving DecidableEq, Repr

/-- The eight per-pole score accumulators of
`GameLogic._generate_local_mbti_result` (game_logic.py line 607). -/
structure MbtiScores where
  e_score : Int
  i_score : Int
  s_score : Int
  n_score : Int
  t_score : Int
  f_score : Int
  j_score : Int
  p_score : Int
  deriving DecidableEq, Repr

def initScores : MbtiScores := ⟨0, 0, 0, 0, 0, 0, 0, 0⟩

/-- One iteration of the scoring loop of `_generate_local_mbti_result`
(game_logic.py lines 609-642): look the question up by id (first match, as
the inner `for q in mbti_questions` loop does), skip it when absent or
untagged, convert the answer index to the signed score `2 - answer`, and add
it to the accumulator of the dimension tag. -/
def apply_mbti_answer (questions : List MbtiQuestion) (sc : MbtiScores)
    (qa : Nat × Nat) : MbtiScores :=
  match questions.find? (fun q => q.id == qa.1) with
  | none => sc
  | some q =>
    match q.dimension with
    | none => sc
    | some dimension =>
      let score : Int := 2 - (qa.2 : Int)
      if dimension = "E-I" then { sc with e_score := sc.e_score + score }
      else if dimension = "I-E" then { sc with i_score := sc.i_score + score }
      else if dimension = "S-N" then { sc with s_score := sc.s_score + score }
      else if dimension = "N-S" then { sc with n_score := sc.n_score + score }
      else if dimension = "T-F" then { sc with t_score := sc.t_score + score }
      else if dimension = "F-T" then { sc with f_score := sc.f_score + score }
      else if dimension = "J-P" then { sc with j_score := sc.j_score + score }
      else if dimension = "P-J" then { sc with p_score := sc.p_score + score }
      else sc

/-- The accumulated scores over the answers mapping (`mbti_answers` is a dict
question-id to option-index, iterated in insertion order; modelled as an
association list). -/
def compute_mbti_scores (questions : List MbtiQuestion)
    (answers : List (Nat × Nat)) : MbtiScores :=
  answers.foldl (apply_mbti_answer questions) initScores

/-- The 4-letter type code computed by `_generate_local_mbti_result`
(game_logic.py lines 644-649): per axis, the first-listed pole is chosen
exactly when its score is strictly greater. -/
def generate_local_mbti_type (questions : List MbtiQuestion)
    (answers : List (Nat × Nat)) : String :=
  let sc := compute_mbti_scores questions answers
  (if sc.e_score > sc.i_score then "E" else "I")
    ++ (if sc.s_score > sc.n_score then "S" else "N")
    ++ (if sc.t_score > sc.f_score then "T" else "F")
    ++ (if sc.j_score > sc.p_score then "J" else "P")

/-- The scenario-analysis payload shape of `AIService.analyze_scenario`
(ai_service.py). -/
structure ScenarioAnalysis where
  questions : List String
  perspectives : List String
  action_plan : List String
  deriving DecidableEq, Repr

/-- `AIService._get_fallback_scenario_analysis` (ai_service.py lines 336-358):
the static fallback payload, a constant. -/
def get_fallback_scenario_analysis : ScenarioAnalysis where
  questions := [
    "What are your main priorities in this situation?",
    "What alternatives have you considered?",
    "What are the potential risks of each option?",
    "How might this decision affect others around you?",
    "What information do you still need to make this decision?"]
  perspectives := [
    "Consider how this decision aligns with your long-term goals.",
    "Think about how this decision might look in hindsight a year from now.",
    "Examine this situation from the perspective of someone you admire.",
    "Consider the ethical implications of each possible choice."]
  action_plan := [
    "List all available options and their pros/cons.",
    "Gather any missing information you identified earlier.",
    "Consult with someone you trust about this decision.",
    "Set a deadline for making the final decision."]

/-- The observable outcome of the underlying Groq client call inside
`AIService._call_groq_api`: either the client raised an exception
(connection failure, timeout, missing choices), or it produced a completion
content string. -/
inductive GroqCallOutcome
  | exn (message : String)
  | content (text : String)
  deriving DecidableEq, Repr

/-- The value `_call_groq_api` hands back to its caller: either structured
data (the fallback payload, or JSON extracted from a thinking block) or a
raw content string left for the caller to parse. -/
inductive GroqReply (α : Type)
  | data (value : α)
  | text (s : String)
  deriving DecidableEq, Repr

/-- `AIService._call_groq_api` (ai_service.py lines 28-87).  `fallback` is the
per-method fallback constructor; `parseJson` is the json-library oracle used
by the regex rescue that hunts for a JSON object inside a thinking block (the
code first regex-matches a brace block and then `json.loads` it; both steps
are folded into the oracle).  An empty or whitespace-only content raises a
`ValueError` that the surrounding `except` turns into the fallback. -/
def call_groq_api {α : Type} (fallback : Unit → α) (parseJson : String → Option α)
    (outcome : GroqCallOutcome) : GroqReply α :=
  match outcome with
  | .exn _ => .data (fallback ())
  | .content response_content =>
    if py_strip response_content = "" then
      .data (fallback ())
    else if response_content.startsWith "<think>" then
      match response_content.splitOn "</think>" with
      | [] => .data (fallback ())
      | [_] =>
        match parseJson response_content with
        | some v => .data v
        | none => .data (fallback ())
      | _ :: rest =>
        let tail := String.intercalate "</think>" rest
        if py_strip tail ≠ "" then
          .text (py_strip tail)
        else
          match parseJson response_content with
          | some v => .data v
          | none => .data (fallback ())
    else
      .text response_content

/-- The code-fence stripping of `AIService.analyze_scenario` (ai_service.py
lines 119-122). -/
def strip_code_fences (s : String) : String :=
  if s.startsWith "```json" then
    py_strip ((((s.splitOn "```json").getD 1 "").splitOn "```").getD 0 "")
  else if s.startsWith "```" then
    py_strip ((((s.splitOn "```").getD 1 "").splitOn "```").getD 0 "")
  else
    s

/-- `AIService.analyze_scenario` (ai_service.py lines 89-144): a dict coming
back from `_call_groq_api` (fallback or extracted JSON) is returned as is;
a string reply is cleaned of code fences and parsed, falling back to the
static payload when no JSON can be recovered (the secondary regex-extraction
parse attempt is folded into the `parseJson` oracle). -/
def ai_analyze_scenario (parseJson : String → Option ScenarioAnalysis)
    (outcome : GroqCallOutcome) : ScenarioAnalysis :=
  match call_groq_api (fun _ => get_fallback_scenario_analysis) parseJson outcome with
  | .data d => d
  | .text response =>
    let cleaned := strip_code_fences (py_strip response)
    match parseJson cleaned with
    | some result => result
    | none => get_fallback_scenario_analysis

/-- Claim C1: after a single goto (`change_state` with `save_previous=true`)
from screen A to screen B, `back_to_previous_state` restores `current_state`
to A and records B as previous (the swap); a second back with no intervening
transition returns to B, the screen current before the first back. -/
theorem c1_goto_back_toggle (g : GameState) (b : ScreenState) :
    (back_to_previous_state (change_state g b true)).current_state = g.current_state ∧
    (back_to_previous_state (change_state g b true)).previous_state = some b ∧
    (back_to_previous_state (back_to_previous_state (change_state g b true))).current_state
      = (change_state g b true).current_state ∧
    (change_state g b true).current_state = b := by
  simp [change_state, back_to_previous_state]

/-- Claim C10: when `previous_state` is `None`, `back_to_previous_state` sets
`current_state` to the SCENARIO screen and leaves `previous_state` untouched;
the current/previous swap happens exactly when a previous state is recorded. -/
theorem c10_back_without_previous (g : GameState) :
    (g.previous_state = none →
      (back_to_previous_state g).current_state = ScreenState.scenario ∧
      (back_to_previous_state g).previous_state = none) ∧
    (∀ p, g.previous_state = some p →
      (back_to_previous_state g).current_state = p ∧
      (back_to_previous_state g).previous_state = some g.current_state) := by
  constructor
  · intro h
    simp [back_to_previous_state, h]
  · intro p h
    simp [back_to_previous_state, h]

/-- Witness for C10: in the initial state no previous screen is recorded, and
back-navigation lands on the SCENARIO screen. -/
theorem c10_back_without_previous_witness :
    (back_to_previous_state initGameState).current_state = ScreenState.scenario ∧
    (back_to_previous_state initGameState).previous_state = none :=
  (c10_back_without_previous initGameState).1 rfl

/-- Claim C8: when the underlying Groq client always fails (raises), the AI
wrapper `analyze_scenario` returns the static fallback payload on every call,
so any two calls in degraded mode yield equal results, whatever the failure
messages and whatever the JSON oracle. -/
theorem c8_fallback_idempotent (m1 m2 : String)
    (p1 p2 : String → Option ScenarioAnalysis) :
    ai_analyze_scenario p1 (GroqCallOutcome.exn m1) = get_fallback_scenario_analysis ∧
    ai_analyze_scenario p1 (GroqCallOutcome.exn m1)
      = ai_analyze_scenario p2 (GroqCallOutcome.exn m2) := by
  exact ⟨rfl, rfl⟩

/-- Counterexample to claim C2 as stated: for a LoadingTask with a supplied
operation whose worker thread stays alive, a loading-update step taken
1000000 ms after the start (far past every fixed ceiling) leaves the
application loading and the task uncompleted, and so does every later step
while the thread lives — `_update_loading` re-checks `is_alive` first and
never reaches the timeout branch. -/
theorem c2_counterexample :
    (update (start_loading initGameState "Logging in..."
        (some ScreenState.scenario) true 0) 1000000 true).is_loading = true ∧
    (update (start_loading initGameState "Logging in..."
        (some ScreenState.scenario) true 0) 1000000 true).loading_completed = false ∧
    (update (update (start_loading initGameState "Logging in..."
        (some ScreenState.scenario) true 0) 1000000 true) 2000000 true).is_loading = true := by
  exact ⟨rfl, rfl, rfl⟩

/-- Claim C2 as amended: the watchdog guarantee holds for every LoadingTask
that has no supplied operation, or is already marked completed, or whose
worker thread is no longer alive: once elapsed time exceeds the fixed
ceiling, the loading-update step marks the task completed or leaves the
loading state and sets the current screen to the login screen.  (A task
whose supplied operation never terminates keeps the application in the
loading state indefinitely.) -/
theorem c2_watchdog_amended (g : GameState) (t : Nat) (opAlive : Bool)
    (helapsed : 3500 < t - g.loading_start_time)
    (hsafe : g.loading_operation = false ∨ g.loading_completed = true ∨ opAlive = false) :
    (update_loading g t opAlive).loading_completed = true ∨
    ((update_loading g t opAlive).is_loading = false ∧
      (update_loading g t opAlive).current_state = ScreenState.login) := by
  simp only [update_loading]
  split_ifs with h1 h2 h3 h4 h5 <;>
    simp_all <;>
    omega

/-- Witness for C2 (amended): a loading task started with no operation at
tick 0, observed at tick 4000. -/
theorem c2_watchdog_amended_witness :
    3500 < 4000 - (start_loading initGameState "Loading..." none false 0).loading_start_time ∧
    ((update_loading (start_loading initGameState "Loading..." none false 0) 4000 true).loading_completed = true ∨
      ((update_loading (start_loading initGameState "Loading..." none false 0) 4000 true).is_loading = false ∧
        (update_loading (start_loading initGameState "Loading..." none false 0) 4000 true).current_state
          = ScreenState.login)) :=
  ⟨by decide,
    c2_watchdog_amended (start_loading initGameState "Loading..." none false 0) 4000 true
      (by decide) (Or.inl rfl)⟩

/-- Helper: a loading-update step never changes the recorded target state. -/
theorem update_loading_target_eq (g : GameState) (t : Nat) (a : Bool) :
    (update_loading g t a).loading_target_state = g.loading_target_state := by
  simp only [update_loading]
  split_ifs <;> rfl

/-- Helper: a loading-update step never revokes a completed task. -/
theorem update_loading_keeps_completed (g : GameState) (t : Nat) (a : Bool)
    (h : g.loading_completed = true) :
    (update_loading g t a).loading_completed = true := by
  simp only [update_loading]
  split_ifs <;> first | rfl | exact h

/-- Helper: an update step on a loading state whose task is completed with a
recorded target performs the transition to that target, leaves the loading
state and clears the task. -/
theorem update_transition (g : GameState) (t : Nat) (a : Bool) (x : ScreenState)
    (hload : g.is_loading = true)
    (hcomp : g.loading_completed = true)
    (htgt : g.loading_target_state = some x) :
    (update g t a).current_state = x ∧
    (update g t a).is_loading = false ∧
    (update g t a).loading_target_state = none ∧
    (update g t a).loading_operation = false := by
  have hc := update_loading_keeps_completed g t a hcomp
  have ht := update_loading_target_eq g t a
  simp only [update]
  rw [if_pos hload, if_pos hc, ht, htgt]
  exact ⟨rfl, rfl, rfl, rfl⟩

/-- Claim C3: when a loading task completes, the engine transitions to the
value of `loading_target_state` at completion time.  Concretely: a task is
started towards an arbitrary target `tgt`, the registration-failure handler
overrides the target to REGISTER mid-flight, and the next update step — at
any tick — lands on the REGISTER screen (never on `tgt`), leaving the
loading state and clearing the task in the same single transition. -/
theorem c3_completion_uses_target_at_completion (g : GameState) (tgt : ScreenState)
    (msg detail : String) (t0 t : Nat) (opAlive : Bool) :
    (update (register_failure (start_loading g msg (some tgt) true t0) detail) t opAlive).current_state
      = ScreenState.register ∧
    (update (register_failure (start_loading g msg (some tgt) true t0) detail) t opAlive).is_loading
      = false ∧
    (update (register_failure (start_loading g msg (some tgt) true t0) detail) t opAlive).loading_target_state
      = none ∧
    (update (register_failure (start_loading g msg (some tgt) true t0) detail) t opAlive).loading_operation
      = false :=
  update_transition (register_failure (start_loading g msg (some tgt) true t0) detail)
    t opAlive ScreenState.register rfl rfl rfl

/-- Claim C7: a LoadingTask started with no operation auto-completes within
the fixed ceiling: progress is a function of elapsed time capped at 100
(namely `elapsed * 100 / 2000` below 2 s, then 100), any update step taken
past the 2500 ms auto-complete threshold observes `loading_completed = true`,
and completion is never revoked by later steps. -/
theorem c7_no_operation_autocompletes (g : GameState) (t : Nat) (opAlive : Bool)
    (hop : g.loading_operation = false) :
    (update_loading g t opAlive).loading_progress ≤ 100 ∧
    (update_loading g t opAlive).loading_progress
      = (if t - g.loading_start_time < 2000 then (t - g.loading_start_time) * 100 / 2000 else 100) ∧
    (2500 < t - g.loading_start_time → (update_loading g t opAlive).loading_completed = true) ∧
    (g.loading_completed = true → (update_loading g t opAlive).loading_completed = true) := by
  simp only [update_loading, hop, Bool.false_and, Bool.false_eq_true, if_false]
  split_ifs with h1 h2 h3 h4 <;> simp_all <;>
    exact ⟨by omega, fun hc => absurd hc (by omega)⟩

/-- Witness for C7: a task started with no operation at tick 0, observed at
tick 2600: progress is 100 and the task is completed. -/
theorem c7_no_operation_autocompletes_witness :
    (update_loading (start_loading initGameState "Loading..." none false 0) 2600 true).loading_progress ≤ 100 ∧
    (update_loading (start_loading initGameState "Loading..." none false 0) 2600 true).loading_completed = true :=
  ⟨(c7_no_operation_autocompletes (start_loading initGameState "Loading..." none false 0)
      2600 true rfl).1,
    (c7_no_operation_autocompletes (start_loading initGameState "Loading..." none false 0)
      2600 true rfl).2.2.1 (by decide)⟩

/-- Claim C5: the local MBTI scorer is deterministic (in the pure embedding,
two runs on the same answer mapping and question list are literally the same
value), and each answered question whose id resolves to a dimension-tagged
question contributes the signed magnitude `2 - answer` to the accumulator of
the first-listed pole of its dimension tag, the remaining axes accumulating
over the other answers. -/
theorem c5_mbti_scoring_deterministic_additive
    (questions : List MbtiQuestion) (answers : List (Nat × Nat))
    (qid a : Nat) (q : MbtiQuestion)
    (hfind : questions.find? (fun qq => qq.id == qid) = some q) :
    generate_local_mbti_type questions answers = generate_local_mbti_type questions answers ∧
    (q.dimension = some "E-I" →
      (compute_mbti_scores questions (answers ++ [(qid, a)])).e_score
        = (compute_mbti_scores questions answers).e_score + (2 - (a : Int))) ∧
    (q.dimension = some "I-E" →
      (compute_mbti_scores questions (answers ++ [(qid, a)])).i_score
        = (compute_mbti_scores questions answers).i_score + (2 - (a : Int))) ∧
    (q.dimension = some "S-N" →
      (compute_mbti_scores questions (answers ++ [(qid, a)])).s_score
        = (compute_mbti_scores questions answers).s_score + (2 - (a : Int))) ∧
    (q.dimension = some "N-S" →
      (compute_mbti_scores questions (answers ++ [(qid, a)])).n_score
        = (compute_mbti_scores questions answers).n_score + (2 - (a : Int))) ∧
    (q.dimension = some "T-F" →
      (compute_mbti_scores questions (answers ++ [(qid, a)])).t_score
        = (compute_mbti_scores questions answers).t_score + (2 - (a : Int))) ∧
    (q.dimension = some "F-T" →
      (compute_mbti_scores questions (answers ++ [(qid, a)])).f_score
        = (compute_mbti_scores questions answers).f_score + (2 - (a : Int))) ∧
    (q.dimension = some "J-P" →
      (compute_mbti_scores questions (answers ++ [(qid, a)])).j_score
        = (compute_mbti_scores questions answers).j_score + (2 - (a : Int))) ∧
    (q.dimension = some "P-J" →
      (compute_mbti_scores questions (answers ++ [(qid, a)])).p_score
        = (compute_mbti_scores questions answers).p_score + (2 - (a : Int))) := by
  have hstep : compute_mbti_scores questions (answers ++ [(qid, a)])
      = apply_mbti_answer questions (compute_mbti_scores questions answers) (qid, a) := by
    simp [compute_mbti_scores, List.foldl_append]
  refine ⟨rfl, ?_, ?_, ?_, ?_, ?_, ?_, ?_, ?_⟩ <;>
    intro hdim <;>
    rw [hstep] <;>
    simp [apply_mbti_answer, hfind, hdim]

/-- Witness for C5: a single E-I question answered with option 0 adds +2 to
the E accumulator. -/
theorem c5_mbti_scoring_deterministic_additive_witness :
    List.find? (fun qq => qq.id == 1) [MbtiQuestion.mk 1 (some "E-I")]
      = some (MbtiQuestion.mk 1 (some "E-I")) ∧
    (compute_mbti_scores [MbtiQuestion.mk 1 (some "E-I")] ([] ++ [(1, 0)])).e_score
      = (compute_mbti_scores [MbtiQuestion.mk 1 (some "E-I")] []).e_score + (2 - ((0 : Nat) : Int)) :=
  ⟨by decide,
    (c5_mbti_scoring_deterministic_additive [MbtiQuestion.mk 1 (some "E-I")] [] 1 0
      (MbtiQuestion.mk 1 (some "E-I")) (by decide)).2.1 rfl⟩

/-- Claim C9: the implicit tie-break of the local MBTI scorer: each letter is
chosen by a strict greater-than comparison, so an axis with equal pole scores
yields the second pole — I, N, F, P respectively — and the empty answer
mapping always produces the type code INFP. -/
theorem c9_mbti_tiebreak (questions : List MbtiQuestion) (answers : List (Nat × Nat)) :
    ((compute_mbti_scores questions answers).e_score = (compute_mbti_scores questions answers).i_score →
      (generate_local_mbti_type questions answers).data.get? 0 = some 'I') ∧
    ((compute_mbti_scores questions answers).s_score = (compute_mbti_scores questions answers).n_score →
      (generate_local_mbti_type questions answers).data.get? 1 = some 'N') ∧
    ((compute_mbti_scores questions answers).t_score = (compute_mbti_scores questions answers).f_score →
      (generate_local_mbti_type questions answers).data.get? 2 = some 'F') ∧
    ((compute_mbti_scores questions answers).j_score = (compute_mbti_scores questions answers).p_score →
      (generate_local_mbti_type questions answers).data.get? 3 = some 'P') ∧
    generate_local_mbti_type questions [] = "INFP" := by
  refine ⟨?_, ?_, ?_, ?_, ?_⟩
  · intro h
    simp only [generate_local_mbti_type]
    split_ifs <;> first | decide | (exfalso; omega)
  · intro h
    simp only [generate_local_mbti_type]
    split_ifs <;> first | decide | (exfalso; omega)
  · intro h
    simp only [generate_local_mbti_type]
    split_ifs <;> first | decide | (exfalso; omega)
  · intro h
    simp only [generate_local_mbti_type]
    split_ifs <;> first | decide | (exfalso; omega)
  · simp only [generate_local_mbti_type, compute_mbti_scores, List.foldl_nil]
    rfl

/-- Claim C6: a blank required field never starts a background task and never
changes the screen: whitespace-only scenario text makes `analyze_scenario`
only set a validation status, and an empty username or password makes the
login submit handler only set a validation status; in both cases the current
screen and the whole loading-task state are untouched. -/
theorem c6_blank_input_validation (g : GameState) (now now2 : Nat) :
    (py_strip g.scenario_input_text = "" →
      (analyze_scenario g now).status_message = "Please enter a scenario first" ∧
      (analyze_scenario g now).current_state = g.current_state ∧
      (analyze_scenario g now).is_loading = g.is_loading ∧
      (analyze_scenario g now).loading_target_state = g.loading_target_state ∧
      (analyze_scenario g now).loading_operation = g.loading_operation) ∧
    ((g.username_box_text = "" ∨ g.password_box_text = "") →
      (handle_login_submit g now2).status_message = "Please enter username and password" ∧
      (handle_login_submit g now2).current_state = g.current_state ∧
      (handle_login_submit g now2).is_loading = g.is_loading ∧
      (handle_login_submit g now2).loading_target_state = g.loading_target_state ∧
      (handle_login_submit g now2).loading_operation = g.loading_operation) := by
  constructor
  · intro h
    have hcond : g.scenario_input_text = "" ∨ py_strip g.scenario_input_text = "" := Or.inr h
    simp only [analyze_scenario, set_status]
    rw [if_pos hcond]
    exact ⟨rfl, rfl, rfl, rfl, rfl⟩
  · intro h
    simp only [handle_login_submit, set_status]
    rw [if_pos h]
    exact ⟨rfl, rfl, rfl, rfl, rfl⟩

/-- Witness for C6: the initial state has empty scenario text, username and
password; both handlers only set the validation status there. -/
theorem c6_blank_input_validation_witness :
    (analyze_scenario initGameState 0).status_message = "Please enter a scenario first" ∧
    (analyze_scenario initGameState 0).is_loading = initGameState.is_loading ∧
    (handle_login_submit initGameState 0).status_message = "Please enter username and password" ∧
    (handle_login_submit initGameState 0).current_state = initGameState.current_state :=
  ⟨((c6_blank_input_validation initGameState 0 0).1 (by decide)).1,
    ((c6_blank_input_validation initGameState 0 0).1 (by decide)).2.2.1,
    ((c6_blank_input_validation initGameState 0 0).2 (Or.inl rfl)).1,
    ((c6_blank_input_validation initGameState 0 0).2 (Or.inl rfl)).2.1⟩

/-- Helper: the effect of one submission of a non-empty response typed into
the response box: the response is appended, the box cleared, the index
incremented, the question list untouched, and the completion flag raised
exactly when the new index reaches the question count. -/
theorem submit_one_fields (g : GameState) (r : String) (hr : r ≠ "") :
    (submit_response { g with response_input_text := r }).user_responses
      = g.user_responses ++ [r] ∧
    (submit_response { g with response_input_text := r }).response_input_text = "" ∧
    (submit_response { g with response_input_text := r }).current_question_index
      = g.current_question_index + 1 ∧
    (submit_response { g with response_input_text := r }).conversation_questions
      = g.conversation_questions ∧
    (submit_response { g with response_input_text := r }).conversation_complete
      = (if g.conversation_questions.length ≤ g.current_question_index + 1 then true
          else g.conversation_complete) := by
  simp only [submit_response, answer_current_question, complete_conversation, ne_eq, hr,
    not_false_eq_true, if_true]
  split_ifs with h <;> exact ⟨rfl, rfl, rfl, rfl, rfl⟩

/-- Helper: a run of non-empty submissions that stays strictly below the
question count leaves the completion flag unchanged while advancing the index
and accumulating the responses. -/
theorem submit_responses_below (rs : List String) :
    ∀ g : GameState, (∀ r ∈ rs, r ≠ "") →
      g.current_question_index + rs.length < g.conversation_questions.length →
      (submit_responses g rs).conversation_questions = g.conversation_questions ∧
      (submit_responses g rs).current_question_index = g.current_question_index + rs.length ∧
      (submit_responses g rs).conversation_complete = g.conversation_complete ∧
      (submit_responses g rs).user_responses = g.user_responses ++ rs := by
  induction rs with
  | nil =>
    intro g _ _
    refine ⟨rfl, ?_, rfl, ?_⟩ <;> simp [submit_responses]
  | cons r rest ih =>
    intro g hne hlt
    simp only [List.length_cons] at hlt
    have hr : r ≠ "" := hne r (List.mem_cons_self r rest)
    have hf := submit_one_fields g r hr
    have hcc : (submit_response { g with response_input_text := r }).conversation_complete
        = g.conversation_complete := by
      rw [hf.2.2.2.2, if_neg (by omega)]
    have hih := ih (submit_response { g with response_input_text := r })
      (fun x hx => hne x (List.mem_cons_of_mem r hx))
      (by rw [hf.2.2.1, hf.2.2.2.1]; omega)
    refine ⟨?_, ?_, ?_, ?_⟩
    · exact hih.1.trans hf.2.2.2.1
    · refine hih.2.1.trans ?_
      rw [hf.2.2.1]
      simp only [List.length_cons]
      omega
    · exact hih.2.2.1.trans hcc
    · refine hih.2.2.2.trans ?_
      rw [hf.1]
      simp

/-- Helper: a non-empty run of non-empty submissions whose length exactly
exhausts the remaining questions ends with the conversation complete. -/
theorem submit_responses_complete (rs : List String) :
    ∀ g : GameState, (∀ r ∈ rs, r ≠ "") → rs ≠ [] →
      g.current_question_index + rs.length = g.conversation_questions.length →
      (submit_responses g rs).conversation_complete = true ∧
      (submit_responses g rs).current_question_index = g.conversation_questions.length ∧
      (submit_responses g rs).user_responses = g.user_responses ++ rs := by
  induction rs with
  | nil =>
    intro g _ hnil _
    exact absurd rfl hnil
  | cons r rest ih =>
    intro g hne _ hlen
    simp only [List.length_cons] at hlen
    have hr : r ≠ "" := hne r (List.mem_cons_self r rest)
    have hf := submit_one_fields g r hr
    rcases eq_or_ne rest [] with hrest | hrest
    · subst hrest
      simp only [List.length_nil] at hlen
      refine ⟨?_, ?_, ?_⟩
      · exact hf.2.2.2.2.trans (if_pos (by omega))
      · exact hf.2.2.1.trans (by omega)
      · exact hf.1
    · have hih := ih (submit_response { g with response_input_text := r })
        (fun x hx => hne x (List.mem_cons_of_mem r hx)) hrest
        (by rw [hf.2.2.1, hf.2.2.2.1]; omega)
      refine ⟨hih.1, ?_, ?_⟩
      · exact hih.2.1.trans (by rw [hf.2.2.2.1])
      · refine hih.2.2.trans ?_
        rw [hf.1]
        simp

/-- Claim C4: for a conversation initialized with N questions (index 0,
complete false), submitting N non-empty responses through the
response-submission handler raises `conversation_complete` exactly at the Nth
submission and not before; every submission appends its response, clears the
input box, and increments the index by one. -/
theorem c4_conversation_progression (g : GameState) (rs : List String)
    (hq : 0 < g.conversation_questions.length)
    (hidx : g.current_question_index = 0)
    (hcomp : g.conversation_complete = false)
    (hlen : rs.length = g.conversation_questions.length)
    (hne : ∀ r ∈ rs, r ≠ "") :
    (∀ k, k < rs.length →
      (submit_responses g (List.take k rs)).conversation_complete = false ∧
      (submit_responses g (List.take k rs)).current_question_index = k) ∧
    (submit_responses g rs).conversation_complete = true ∧
    (submit_responses g rs).current_question_index = g.conversation_questions.length ∧
    (submit_responses g rs).user_responses = g.user_responses ++ rs ∧
    (∀ (h : GameState) (r : String), r ≠ "" →
      (submit_response { h with response_input_text := r }).user_responses
        = h.user_responses ++ [r] ∧
      (submit_response { h with response_input_text := r }).response_input_text = "" ∧
      (submit_response { h with response_input_text := r }).current_question_index
        = h.current_question_index + 1) := by
  have hnil : rs ≠ [] := List.length_pos.mp (by omega)
  refine ⟨?_, ?_, ?_, ?_, ?_⟩
  · intro k hk
    have htake : (List.take k rs).length = k := by
      rw [List.length_take]
      omega
    have hb := submit_responses_below (List.take k rs) g
      (fun r hrr => hne r (List.take_subset k rs hrr))
      (by rw [htake]; omega)
    exact ⟨hb.2.2.1.trans hcomp, hb.2.1.trans (by omega)⟩
  · exact (submit_responses_complete rs g hne hnil (by omega)).1
  · exact (submit_responses_complete rs g hne hnil (by omega)).2.1
  · exact (submit_responses_complete rs g hne hnil (by omega)).2.2
  · intro h r hr
    have hf := submit_one_fields h r hr
    exact ⟨hf.1, hf.2.1, hf.2.2.1⟩

/-- Witness for C4: a two-question conversation with two non-empty responses:
not complete after the first submission, complete after the second. -/
theorem c4_conversation_progression_witness :
    (submit_responses { initGameState with conversation_questions := ["q1", "q2"] }
        ["a", "b"]).conversation_complete = true ∧
    (submit_responses { initGameState with conversation_questions := ["q1", "q2"] }
        (List.take 1 ["a", "b"])).conversation_complete = false ∧
    (submit_responses { initGameState with conversation_questions := ["q1", "q2"] }
        (List.take 1 ["a", "b"])).current_question_index = 1 :=
  ⟨(c4_conversation_progression { initGameState with conversation_questions := ["q1", "q2"] }
      ["a", "b"] (by decide) rfl rfl (by decide) (by decide)).2.1,
    ((c4_conversation_progression { initGameState with conversation_questions := ["q1", "q2"] }
      ["a", "b"] (by decide) rfl rfl (by decide) (by decide)).1 1 (by decide)).1,
    ((c4_conversation_progression { initGameState with conversation_questions := ["q1", "q2"] }
      ["a", "b"] (by decide) rfl rfl (by decide) (by decide)).1 1 (by decide)).2⟩

/-- Witness for C9: with no questions and no answers, every axis is tied and
the type code is INFP with the second pole in every position. -/
theorem c9_mbti_tiebreak_witness :
    (generate_local_mbti_type [] []).data.get? 0 = some 'I' ∧
    (generate_local_mbti_type [] []).data.get? 1 = some 'N' ∧
    (generate_local_mbti_type [] []).data.get? 2 = some 'F' ∧
    (generate_local_mbti_type [] []).data.get? 3 = some 'P' ∧
    generate_local_mbti_type [] [] = "INFP" :=
  ⟨(c9_mbti_tiebreak [] []).1 rfl,
    (c9_mbti_tiebreak [] []).2.1 rfl,
    (c9_mbti_tiebreak [] []).2.2.1 rfl,
    (c9_mbti_tiebreak [] []).2.2.2.1 rfl,
    (c9_mbti_tiebreak [] []).2.2.2.2⟩

end DecisionGame
